import Mathlib

/-!
# Verification of the RasPi-NDI-HDMI capture control loop

Shallow embedding of `src/main.cpp` (the NDI capture orchestrator):
the parameter resolver `_getValue` (bounded and unbounded overloads),
the signal/keyboard bridge `get_key_or_signal`, the per-iteration body of
`event_loop`, and the brightness computation performed in `main`.

Modelling conventions:
* The libconfig store is a partial map `String → Option CVal`.  A lookup of
  an absent key raises `SettingNotFoundException`, which the source catches;
  a stored value of the wrong type raises `SettingTypeException` when the
  returned `Setting` is converted, which the source does *not* catch, so it
  escapes `_getValue`.  We model an escaping exception as `Except.error`.
* Machine `unsigned int` arithmetic on the loop counter is `% 2^32`.
* Characters and signal numbers are integers with their Linux values:
  `'x' = 120`, `'X' = 88`, `'\n' = 10`, `SIGINT = 2`, `SIGUSR1 = 10`,
  `SIGUSR2 = 12`, `SIGPIPE = 13`.
* One iteration of the `for (unsigned int count = 0; ; count++)` loop is the
  function `event_loop_step`; note that C++ `continue` transfers control to
  the `count++` increment, so the Timeout branch also increments `count`.
* External calls performed by an iteration are recorded in an `LoopAct` trace.
-/

/-- A libconfig stored value: integer, floating point, or string. -/
inductive CVal
  | intV (v : Int)
  | fltV (v : Rat)
  | strV (s : String)
deriving DecidableEq

/-- The configuration store (`cfg` in the source): a key–value map. -/
def Config : Type := String → Option CVal

/-- An exception escaping `_getValue`: libconfig's `SettingTypeException`,
raised when the stored value's type mismatches the requested one; the source
only catches `SettingNotFoundException`. -/
inductive CfgExc
  | settingTypeExc
deriving DecidableEq

instance {ε α : Type} [DecidableEq ε] [DecidableEq α] : DecidableEq (Except ε α)
  | .error a, .error b => decidable_of_iff (a = b) (by simp)
  | .error _, .ok _ => isFalse (by intro h; cases h)
  | .ok _, .error _ => isFalse (by intro h; cases h)
  | .ok a, .ok b => decidable_of_iff (a = b) (by simp)

/-- Result of the bounded `_getValue` overload: the returned value (or the
escaping exception) together with whether a warning line was printed. -/
structure BoundedLookup where
  value : Except CfgExc Int
  warned : Bool
deriving DecidableEq

/-- `int _getValue(std::string parameter, int defaultValue, int min, int max)`
(main.cpp lines 42–62).  The `mn` argument is accepted but never read by the
source: the lower check is literally `value < 0`.  Over-`max` values yield the
fixed literal `100` with a warning; negative values yield `0` with a warning;
an absent key yields the default; a type-mismatched value raises
`SettingTypeException`, which is not caught. -/
def getValueBoundedInt (cfg : Config) (parameter : String) (defaultValue _mn mx : Int) :
    BoundedLookup :=
  match cfg parameter with
  | none => ⟨.ok defaultValue, false⟩
  | some (.intV value) =>
      if value > mx then ⟨.ok 100, true⟩
      else if value < 0 then ⟨.ok 0, true⟩
      else ⟨.ok value, false⟩
  | some _ => ⟨.error .settingTypeExc, false⟩

/-- `int _getValue(std::string parameter, int defaultValue)`
(main.cpp lines 64–74). -/
def getValueInt (cfg : Config) (parameter : String) (defaultValue : Int) :
    Except CfgExc Int :=
  match cfg parameter with
  | none => .ok defaultValue
  | some (.intV value) => .ok value
  | some _ => .error .settingTypeExc

/-- `float _getValue(std::string parameter, float defaultValue)`
(main.cpp lines 76–86); float values are modelled as rationals, no arithmetic
is performed on them. -/
def getValueFloat (cfg : Config) (parameter : String) (defaultValue : Rat) :
    Except CfgExc Rat :=
  match cfg parameter with
  | none => .ok defaultValue
  | some (.fltV value) => .ok value
  | some _ => .error .settingTypeExc

/-- `std::string _getValue(std::string parameter, std::string defaultValue)`
(main.cpp lines 88–98). -/
def getValueString (cfg : Config) (parameter : String) (defaultValue : String) :
    Except CfgExc String :=
  match cfg parameter with
  | none => .ok defaultValue
  | some (.strV value) => .ok value
  | some _ => .error .settingTypeExc

/-- The brightness expression of main.cpp line 285:
`((_getValue("brightness", 50) / 50) - 1)` under C++ `int` division,
which truncates toward zero (`Int.tdiv`). -/
def brightnessSetting (b : Int) : Int :=
  b.tdiv 50 - 1

/-- The full startup computation of the brightness option from the store. -/
def brightnessOption (cfg : Config) : Except CfgExc Int :=
  (getValueInt cfg "brightness" 50).map brightnessSetting

/-! ## Signal bridge: `get_key_or_signal` (main.cpp lines 138–163) -/

def SIGINT : Int := 2
def SIGUSR1 : Int := 10
def SIGUSR2 : Int := 12
def SIGPIPE : Int := 13

/-- Result of one call to `get_key_or_signal`: the returned key together with
the value of the global `signal_received` after the call. -/
structure KeyPoll where
  key : Int
  signalAfter : Int
deriving DecidableEq

/-- `static int get_key_or_signal(VideoOptions const *options, pollfd p[1])`
(main.cpp lines 138–163).  `keypressMode` is `options->keypress`,
`signalMode` is `options->signal`, `signal_received` is the global set by
`default_signal_handler`, and `stdinLine` is `some line` when `poll` reports
a line available on standard input (`line` is its byte sequence,
`user_string[0]` is its head). -/
def get_key_or_signal (keypressMode signalMode : Bool) (signal_received : Int)
    (stdinLine : Option (List Nat)) : KeyPoll :=
  if signal_received = SIGINT then
    ⟨120, signal_received⟩
  else
    let key : Int :=
      if keypressMode then
        match stdinLine with
        | some line => (line.headD 0 : Nat)
        | none => 0
      else 0
    if signalMode then
      let key2 : Int :=
        if signal_received = SIGUSR1 then 10
        else if signal_received = SIGUSR2 ∨ signal_received = SIGPIPE then 120
        else key
      ⟨key2, 0⟩
    else
      ⟨key, signal_received⟩

/-! ## The event loop (main.cpp lines 199–240) -/

/-- `RPiCamApp::MsgType`: the tags of messages returned by `app.Wait()`. -/
inductive MsgType
  | Timeout
  | Quit
  | RequestComplete
deriving DecidableEq

/-- External calls an iteration of the loop can perform, in order. -/
inductive LoopAct
  | LogError
  | StopCamera
  | StartCamera
  | StopEncoder
  | EncodeBuffer
  | ShowPreview
  | OutputSignal
deriving DecidableEq

/-- Termination cause of the loop (spec §3 "Termination Cause"). -/
inductive Cause
  | elapsedTimeout
  | frameLimit
  | stopKey
  | upstreamQuit
deriving DecidableEq

/-- The two `VideoOptions` fields the loop body reads for termination:
`frames` (`unsigned int`, 0 = unset) and `timeout` (`TimeVal`, 0 = unset,
falsy exactly when 0). -/
structure VideoOptions where
  frames : Nat
  timeout : Nat
deriving DecidableEq

/-- Loop-local mutable state: `count` (the `for` counter, `unsigned int`) and
`start_time` (the timeout anchor, a clock reading). -/
structure LoopState where
  count : Nat
  start_time : Nat
deriving DecidableEq

/-- Outcome of one loop iteration: continue with a new state, or `return`
from `event_loop` with a termination cause; both carry the trace of external
calls the iteration performed. -/
inductive StepResult
  | next (s : LoopState) (acts : List LoopAct)
  | exit (cause : Cause) (acts : List LoopAct)
deriving DecidableEq

def UINT32_MOD : Nat := 4294967296

/-- The assignment block of main.cpp lines 232–238: when `EncodeBuffer`
returns false, `start_time = now; count = 0;`, otherwise nothing. -/
def dispatchUpdate (now : Nat) (encoded : Bool) (s : LoopState) : LoopState :=
  if encoded then s else ⟨0, now⟩

/-- One iteration of the `for (unsigned int count = 0; ; count++)` body of
`event_loop` (main.cpp lines 199–240).  Inputs: the message returned by
`app.Wait()`, the key returned by `get_key_or_signal`, the clock reading
`now`, and the boolean returned by `app.EncodeBuffer`.  The `% 2^32` wraps
model the `unsigned int` increment; `continue` in the Timeout branch reaches
the `count++` increment of the `for` header before the next iteration. -/
def event_loop_step (options : VideoOptions) (msg : MsgType) (key : Int)
    (now : Nat) (encoded : Bool) (s : LoopState) : StepResult :=
  match msg with
  | .Timeout =>
      .next ⟨(s.count + 1) % UINT32_MOD, s.start_time⟩
        [.LogError, .StopCamera, .StartCamera]
  | .Quit => .exit .upstreamQuit []
  | .RequestComplete =>
      let sigActs : List LoopAct := if key = 10 then [.OutputSignal] else []
      let timeout : Bool := options.frames == 0 && options.timeout != 0
        && decide (now - s.start_time > options.timeout)
      let frameout : Bool := options.frames != 0
        && decide (s.count ≥ options.frames)
      if timeout || frameout || key == 120 || key == 88 then
        .exit (if timeout then .elapsedTimeout
               else if frameout then .frameLimit else .stopKey)
          (sigActs ++ [.StopCamera, .StopEncoder])
      else
        let s2 := dispatchUpdate now encoded s
        .next ⟨(s2.count + 1) % UINT32_MOD, s2.start_time⟩
          (sigActs ++ [.EncodeBuffer, .ShowPreview])

/-- Fuel-bounded run of the event loop from state `s` at iteration index `i`,
driven by per-iteration input streams.  `none` means the fuel ran out with
the loop still going; `some (c, tr)` means the loop returned with cause `c`
having performed the concatenated trace `tr`. -/
def event_loop_run (options : VideoOptions) (msgs : Nat → MsgType)
    (keys : Nat → Int) (nows : Nat → Nat) (encodes : Nat → Bool) :
    Nat → LoopState → Nat → Option (Cause × List LoopAct)
  | 0, _, _ => none
  | fuel+1, s, i =>
    match event_loop_step options (msgs i) (keys i) (nows i) (encodes i) s with
    | .exit c acts => some (c, acts)
    | .next s2 acts =>
      match event_loop_run options msgs keys nows encodes fuel s2 (i+1) with
      | none => none
      | some (c, tr) => some (c, acts ++ tr)

/-- Number of occurrences of an action in a trace. -/
def countAct (a : LoopAct) : List LoopAct → Nat
  | [] => 0
  | b :: l => (if b = a then 1 else 0) + countAct a l

/-- The trace of `n` accepted dispatch iterations. -/
def dispatchActs : Nat → List LoopAct
  | 0 => []
  | n+1 => .EncodeBuffer :: .ShowPreview :: dispatchActs n

/-! ## Concrete stores used as witnesses -/

/-- A store with no keys set. -/
def cfgEmpty : Config := fun _ => none

/-- A store holding the integer 150 under every key. -/
def cfgStored150 : Config := fun _ => some (.intV 150)

/-- A store holding the integer -5 under every key. -/
def cfgStoredNeg5 : Config := fun _ => some (.intV (-5))

/-- A store holding a string under every key (type mismatch for int lookups). -/
def cfgTypeMismatch : Config := fun _ => some (.strV "oops")

/-! ## Helper lemmas about traces -/

theorem countAct_append (a : LoopAct) (l m : List LoopAct) :
    countAct a (l ++ m) = countAct a l + countAct a m := by
  induction l with
  | nil => simp [countAct]
  | cons b l ih => simp [countAct, ih, Nat.add_assoc]

theorem countAct_dispatchActs_encode (n : Nat) :
    countAct .EncodeBuffer (dispatchActs n) = n := by
  induction n with
  | zero => rfl
  | succ n ih =>
      simp only [dispatchActs, countAct, ih, if_pos, if_neg]
      simp
      omega

theorem countAct_dispatchActs_stopCamera (n : Nat) :
    countAct .StopCamera (dispatchActs n) = 0 := by
  induction n with
  | zero => rfl
  | succ n ih => simp [dispatchActs, countAct, ih]

theorem countAct_dispatchActs_stopEncoder (n : Nat) :
    countAct .StopEncoder (dispatchActs n) = 0 := by
  induction n with
  | zero => rfl
  | succ n ih => simp [dispatchActs, countAct, ih]

/-! ## Characterization of single RequestComplete iterations -/


/-- A RequestComplete iteration with no key pressed, below the configured
frame limit, and an accepted encode continues with the counter incremented. -/
theorem step_accept_frame (F T : Nat) (now : Nat) (s : LoopState)
    (h1 : F ≠ 0) (h2 : s.count < F) :
    event_loop_step ⟨F, T⟩ .RequestComplete 0 now true s
      = .next ⟨(s.count + 1) % UINT32_MOD, s.start_time⟩ [.EncodeBuffer, .ShowPreview] := by
  have ht : ((⟨F, T⟩ : VideoOptions).frames == 0) = false := by simp [h1]
  have hf : decide (s.count ≥ (⟨F, T⟩ : VideoOptions).frames) = false := by
    simp [Nat.not_le.mpr h2]
  simp [event_loop_step, dispatchUpdate, ht, hf]

/-- A RequestComplete iteration with no key pressed and the counter at or
above the configured nonzero frame limit exits with cause frame-limit,
stopping the camera and then the encoder. -/
theorem step_frameout_exit (F T : Nat) (now : Nat) (encoded : Bool)
    (s : LoopState) (h1 : F ≠ 0) (h2 : F ≤ s.count) :
    event_loop_step ⟨F, T⟩ .RequestComplete 0 now encoded s
      = .exit .frameLimit [.StopCamera, .StopEncoder] := by
  have ht : ((⟨F, T⟩ : VideoOptions).frames == 0) = false := by simp [h1]
  have hf : decide (s.count ≥ (⟨F, T⟩ : VideoOptions).frames) = true := by simp [h2]
  have hz : ((⟨F, T⟩ : VideoOptions).frames != 0) = true := by simp [h1]
  simp [event_loop_step, ht, hf, hz]

/-- Unfolding lemma: a run with positive fuel whose first iteration exits. -/
theorem event_loop_run_succ_exit (options : VideoOptions) (msgs : Nat → MsgType)
    (keys : Nat → Int) (nows : Nat → Nat) (encodes : Nat → Bool) (fuel : Nat)
    (s : LoopState) (i : Nat) (c : Cause) (acts : List LoopAct)
    (h : event_loop_step options (msgs i) (keys i) (nows i) (encodes i) s = .exit c acts) :
    event_loop_run options msgs keys nows encodes (fuel + 1) s i = some (c, acts) := by
  simp [event_loop_run, h]

/-- Unfolding lemma: a run with positive fuel whose first iteration continues. -/
theorem event_loop_run_succ_next (options : VideoOptions) (msgs : Nat → MsgType)
    (keys : Nat → Int) (nows : Nat → Nat) (encodes : Nat → Bool) (fuel : Nat)
    (s : LoopState) (i : Nat) (s2 : LoopState) (acts : List LoopAct)
    (h : event_loop_step options (msgs i) (keys i) (nows i) (encodes i) s = .next s2 acts) :
    event_loop_run options msgs keys nows encodes (fuel + 1) s i
      = match event_loop_run options msgs keys nows encodes fuel s2 (i + 1) with
        | none => none
        | some (c, tr) => some (c, acts ++ tr) := by
  simp [event_loop_run, h]

/-- With a nonzero frame limit `c + n`, only RequestComplete messages, no
keys, and accepted encodes, a run started at counter `c` exits with cause
frame-limit after exactly `n` more dispatched iterations. -/
theorem run_frames_exit (T : Nat) (msgs : Nat → MsgType) (keys : Nat → Int)
    (nows : Nat → Nat) (encodes : Nat → Bool)
    (hm : ∀ i, msgs i = .RequestComplete) (hk : ∀ i, keys i = 0)
    (he : ∀ i, encodes i = true) :
    ∀ (n c t0 i : Nat), 0 < c + n → c + n < UINT32_MOD →
      event_loop_run ⟨c + n, T⟩ msgs keys nows encodes (n + 1) ⟨c, t0⟩ i
        = some (.frameLimit, dispatchActs n ++ [.StopCamera, .StopEncoder]) := by
  intro n
  induction n with
  | zero =>
      intro c t0 i h0 hW
      rw [event_loop_run_succ_exit _ msgs keys nows encodes 0 ⟨c, t0⟩ i .frameLimit
        [.StopCamera, .StopEncoder] ?_]
      · simp [dispatchActs]
      · rw [hm i, hk i, he i]
        exact step_frameout_exit (c + 0) T (nows i) true ⟨c, t0⟩ (by omega)
          (by show c + 0 ≤ c; omega)
  | succ n ih =>
      intro c t0 i h0 hW
      have hW' : c + (n + 1) < 4294967296 := hW
      have hlt : c + 1 < UINT32_MOD := by show c + 1 < 4294967296; omega
      have hstep := step_accept_frame (c + (n + 1)) T (nows i) ⟨c, t0⟩ (by omega)
        (by show c < c + (n + 1); omega)
      rw [show ((⟨c, t0⟩ : LoopState).count + 1) % UINT32_MOD = c + 1 from
        Nat.mod_eq_of_lt hlt] at hstep
      rw [event_loop_run_succ_next _ msgs keys nows encodes (n + 1) ⟨c, t0⟩ i
        ⟨c + 1, t0⟩ [.EncodeBuffer, .ShowPreview]
        (by rw [hm i, hk i, he i]; exact hstep)]
      rw [show c + (n + 1) = (c + 1) + n from by omega]
      rw [ih (c + 1) t0 (i + 1) (by omega) (by show c + 1 + n < 4294967296; omega)]
      simp [dispatchActs]

/-- With frame limit `F` and counter `c` satisfying `c + n ≤ F`, `n` more
iterations of the same input streams do not terminate the loop. -/
theorem run_frames_none (T F : Nat) (msgs : Nat → MsgType) (keys : Nat → Int)
    (nows : Nat → Nat) (encodes : Nat → Bool)
    (hm : ∀ i, msgs i = .RequestComplete) (hk : ∀ i, keys i = 0)
    (he : ∀ i, encodes i = true) (hW : F < UINT32_MOD) :
    ∀ (n c t0 i : Nat), c + n ≤ F →
      event_loop_run ⟨F, T⟩ msgs keys nows encodes n ⟨c, t0⟩ i = none := by
  have hW' : F < 4294967296 := hW
  intro n
  induction n with
  | zero => intro c t0 i _; rfl
  | succ n ih =>
      intro c t0 i hle
      have hlt : c + 1 < UINT32_MOD := by show c + 1 < 4294967296; omega
      have hstep := step_accept_frame F T (nows i) ⟨c, t0⟩ (by omega)
        (by show c < F; omega)
      rw [show ((⟨c, t0⟩ : LoopState).count + 1) % UINT32_MOD = c + 1 from
        Nat.mod_eq_of_lt hlt] at hstep
      rw [event_loop_run_succ_next _ msgs keys nows encodes n ⟨c, t0⟩ i
        ⟨c + 1, t0⟩ [.EncodeBuffer, .ShowPreview]
        (by rw [hm i, hk i, he i]; exact hstep)]
      rw [ih (c + 1) t0 (i + 1) (by omega)]

/-- With no frame limit, a nonzero timeout `T`, and elapsed time strictly
above `T`, a RequestComplete iteration exits with cause elapsed-timeout. -/
theorem step_timeout_exit (T : Nat) (key : Int) (now : Nat) (encoded : Bool)
    (s : LoopState) (hT : T ≠ 0) (hE : now - s.start_time > T) :
    event_loop_step ⟨0, T⟩ .RequestComplete key now encoded s
      = .exit .elapsedTimeout
          ((if key = 10 then [.OutputSignal] else []) ++ [.StopCamera, .StopEncoder]) := by
  simp [event_loop_step, hT, hE]

/-- With no frame limit and elapsed time not strictly above `T`, a
RequestComplete iteration never exits with cause elapsed-timeout. -/
theorem step_rc_no_timeout (T : Nat) (key : Int) (now : Nat) (encoded : Bool)
    (s : LoopState) (hE : ¬ now - s.start_time > T) :
    ∀ acts, event_loop_step ⟨0, T⟩ .RequestComplete key now encoded s
      ≠ .exit .elapsedTimeout acts := by
  intro acts h
  have h1 : decide (now - s.start_time > T) = false := by simpa using hE
  simp only [event_loop_step, h1] at h
  split at h
  · rw [StepResult.exit.injEq] at h
    obtain ⟨hc, -⟩ := h
    simp at hc
  · cases h

/-- An exit produced by any iteration of a configuration with a nonzero
frame limit never carries cause elapsed-timeout. -/
theorem step_cause_not_timeout (options : VideoOptions) (msg : MsgType)
    (key : Int) (now : Nat) (encoded : Bool) (s : LoopState) (c : Cause)
    (acts : List LoopAct) (hf : options.frames ≠ 0)
    (h : event_loop_step options msg key now encoded s = .exit c acts) :
    c ≠ .elapsedTimeout := by
  have h1 : (options.frames == 0) = false := by simp [hf]
  cases msg with
  | Timeout => simp [event_loop_step] at h
  | Quit =>
      simp only [event_loop_step, StepResult.exit.injEq] at h
      obtain ⟨hc, -⟩ := h
      rw [← hc]
      decide
  | RequestComplete =>
      simp only [event_loop_step, h1, Bool.false_and] at h
      split at h
      · rw [StepResult.exit.injEq] at h
        obtain ⟨hc, -⟩ := h
        simp only [Bool.false_eq_true, if_false] at hc
        rw [← hc]
        split <;> decide
      · cases h

/-! ## Claim theorems -/

/-- C1 (counterexample): the claim says a Timeout iteration does not
increment the iteration counter, but starting from `count = 5` the loop
re-enters the wait with `count = 6`: the C++ `continue` passes through the
`count++` increment of the `for` header. -/
theorem c1_timeout_counterexample :
    event_loop_step ⟨0, 0⟩ .Timeout 0 0 true ⟨5, 3⟩
      = .next ⟨6, 3⟩ [.LogError, .StopCamera, .StartCamera]
    ∧ (6 : Nat) ≠ 5 :=
  ⟨rfl, by decide⟩

/-- C1 (amended): on a Timeout message the iteration logs an error, calls
StopCamera then StartCamera exactly once each, does not exit the loop, and
leaves `start_time` unchanged — but the counter is incremented by one
(mod 2^32) because `continue` runs the `for` increment. -/
theorem c1_timeout_recovery (options : VideoOptions) (key : Int) (now : Nat)
    (encoded : Bool) (s : LoopState) :
    event_loop_step options .Timeout key now encoded s
      = .next ⟨(s.count + 1) % UINT32_MOD, s.start_time⟩
          [.LogError, .StopCamera, .StartCamera]
    ∧ countAct .LogError [.LogError, .StopCamera, .StartCamera] = 1
    ∧ countAct .StopCamera [.LogError, .StopCamera, .StartCamera] = 1
    ∧ countAct .StartCamera [.LogError, .StopCamera, .StartCamera] = 1
    ∧ countAct .StopEncoder [.LogError, .StopCamera, .StartCamera] = 0 :=
  ⟨rfl, by decide, by decide, by decide, by decide⟩

/-- C2: with frame limit `F > 0` (below the `unsigned int` range), every
wait yielding RequestComplete, every encode accepted, and no key, the loop
exits with cause frame-limit after exactly `F` dispatched iterations (the
trace holds `F` EncodeBuffer calls, and the loop is still running after `F`
iterations of fuel), calling StopCamera then StopEncoder exactly once each,
in that order, at the very end of the trace. -/
theorem c2_frame_limit (F T t0 : Nat) (nows : Nat → Nat)
    (hF : 0 < F) (hW : F < UINT32_MOD) :
    event_loop_run ⟨F, T⟩ (fun _ => .RequestComplete) (fun _ => 0) nows
        (fun _ => true) (F + 1) ⟨0, t0⟩ 0
      = some (.frameLimit, dispatchActs F ++ [.StopCamera, .StopEncoder])
    ∧ event_loop_run ⟨F, T⟩ (fun _ => .RequestComplete) (fun _ => 0) nows
        (fun _ => true) F ⟨0, t0⟩ 0 = none
    ∧ countAct .EncodeBuffer (dispatchActs F ++ [.StopCamera, .StopEncoder]) = F
    ∧ countAct .StopCamera (dispatchActs F ++ [.StopCamera, .StopEncoder]) = 1
    ∧ countAct .StopEncoder (dispatchActs F ++ [.StopCamera, .StopEncoder]) = 1
    ∧ countAct .StopCamera (dispatchActs F) = 0 := by
  refine ⟨?_, ?_, ?_, ?_, ?_, ?_⟩
  · have h := run_frames_exit T _ _ nows _ (fun _ => rfl) (fun _ => rfl)
      (fun _ => rfl) F 0 t0 0 (by omega) (by omega)
    simpa using h
  · exact run_frames_none T F _ _ nows _ (fun _ => rfl) (fun _ => rfl)
      (fun _ => rfl) hW F 0 t0 0 (by omega)
  · rw [countAct_append, countAct_dispatchActs_encode]
    simp [countAct]
  · rw [countAct_append, countAct_dispatchActs_stopCamera]
    simp [countAct]
  · rw [countAct_append, countAct_dispatchActs_stopEncoder]
    simp [countAct]
  · exact countAct_dispatchActs_stopCamera F

/-- C2 witness: the end-to-end scenario with `F = 10`. -/
theorem c2_frame_limit_witness :
    event_loop_run ⟨10, 0⟩ (fun _ => .RequestComplete) (fun _ => 0) (fun _ => 0)
        (fun _ => true) 11 ⟨0, 0⟩ 0
      = some (.frameLimit, dispatchActs 10 ++ [.StopCamera, .StopEncoder])
    ∧ event_loop_run ⟨10, 0⟩ (fun _ => .RequestComplete) (fun _ => 0) (fun _ => 0)
        (fun _ => true) 10 ⟨0, 0⟩ 0 = none
    ∧ countAct .EncodeBuffer (dispatchActs 10 ++ [.StopCamera, .StopEncoder]) = 10
    ∧ countAct .StopCamera (dispatchActs 10 ++ [.StopCamera, .StopEncoder]) = 1
    ∧ countAct .StopEncoder (dispatchActs 10 ++ [.StopCamera, .StopEncoder]) = 1
    ∧ countAct .StopCamera (dispatchActs 10) = 0 :=
  c2_frame_limit 10 0 0 (fun _ => 0) (by decide) (by decide)

/-- C3 (counterexample): a Quit message terminates the loop with an empty
trace — neither StopCamera nor StopEncoder is called on that path, contrary
to the claim that every termination performs the orderly shutdown. -/
theorem c3_quit_counterexample :
    event_loop_step ⟨0, 0⟩ .Quit 0 0 true ⟨0, 0⟩ = .exit .upstreamQuit []
    ∧ countAct .StopCamera [] = 0 ∧ countAct .StopEncoder [] = 0 :=
  ⟨rfl, rfl, rfl⟩

/-- C3 (amended): on termination via elapsed-timeout, frame-limit, or an
explicit stop key the loop calls StopCamera then StopEncoder, once each and
in that order, as the last two external calls; on an upstream Quit it
returns immediately with no shutdown calls. -/
theorem c3_shutdown_order (options : VideoOptions) (msg : MsgType) (key : Int)
    (now : Nat) (encoded : Bool) (s : LoopState) (c : Cause) (acts : List LoopAct)
    (h : event_loop_step options msg key now encoded s = .exit c acts) :
    (c = .upstreamQuit → acts = [])
    ∧ (c ≠ .upstreamQuit →
        ∃ pre, acts = pre ++ [.StopCamera, .StopEncoder]
          ∧ countAct .StopCamera pre = 0 ∧ countAct .StopEncoder pre = 0) := by
  cases msg with
  | Timeout => simp [event_loop_step] at h
  | Quit =>
      simp only [event_loop_step, StepResult.exit.injEq] at h
      obtain ⟨hc, ha⟩ := h
      rw [← hc, ← ha]
      exact ⟨fun _ => rfl, fun hq => absurd rfl hq⟩
  | RequestComplete =>
      simp only [event_loop_step] at h
      split at h
      · rw [StepResult.exit.injEq] at h
        obtain ⟨hc, ha⟩ := h
        constructor
        · intro hq
          rw [← hc] at hq
          split at hq
          · cases hq
          · split at hq <;> cases hq
        · intro _
          refine ⟨if key = 10 then [.OutputSignal] else [], ha.symm, ?_, ?_⟩
          · by_cases hk : key = 10 <;> simp [hk, countAct]
          · by_cases hk : key = 10 <;> simp [hk, countAct]
      · cases h

/-- C3 witness: a stop-key exit performs StopCamera then StopEncoder. -/
theorem c3_shutdown_order_witness :
    ((.stopKey : Cause) = .upstreamQuit → ([.StopCamera, .StopEncoder] : List LoopAct) = [])
    ∧ ((.stopKey : Cause) ≠ .upstreamQuit →
        ∃ pre, ([.StopCamera, .StopEncoder] : List LoopAct)
            = pre ++ [.StopCamera, .StopEncoder]
          ∧ countAct .StopCamera pre = 0 ∧ countAct .StopEncoder pre = 0) :=
  c3_shutdown_order ⟨0, 0⟩ .RequestComplete 120 0 true ⟨0, 0⟩ .stopKey
    [.StopCamera, .StopEncoder] (by decide)

/-- C6 (counterexample): with timeout T = 5 and elapsed time exactly 5
(so elapsed ≥ T as the claim requires), the iteration does not exit: the
source compares with strict `>`, not `≥`. -/
theorem c6_timeout_counterexample :
    event_loop_step ⟨0, 5⟩ .RequestComplete 0 5 true ⟨0, 0⟩
      = .next ⟨1, 0⟩ [.EncodeBuffer, .ShowPreview]
    ∧ (5 : Nat) - 0 ≥ 5 := by
  constructor
  · rfl
  · decide

/-- C6 (amended): with no frame limit and a nonzero timeout `T`, a
RequestComplete iteration exits with cause elapsed-timeout exactly when the
elapsed time since `start_time` is strictly greater than `T`; and when a
nonzero frame limit is configured, no exit ever carries cause
elapsed-timeout, so wall-clock time alone never terminates the loop. -/
theorem c6_timeout_strict (T : Nat) (key : Int) (now : Nat) (encoded : Bool)
    (s : LoopState) (hT : T ≠ 0) :
    ((∃ acts, event_loop_step ⟨0, T⟩ .RequestComplete key now encoded s
        = .exit .elapsedTimeout acts) ↔ now - s.start_time > T)
    ∧ (∀ (options : VideoOptions) (msg : MsgType) (key2 : Int) (now2 : Nat)
        (encoded2 : Bool) (s2 : LoopState) (c : Cause) (acts : List LoopAct),
        options.frames ≠ 0 →
        event_loop_step options msg key2 now2 encoded2 s2 = .exit c acts →
        c ≠ .elapsedTimeout) := by
  constructor
  · by_cases hE : now - s.start_time > T
    · exact ⟨fun _ => hE,
        fun _ => ⟨_, step_timeout_exit T key now encoded s hT hE⟩⟩
    · constructor
      · rintro ⟨acts, hstep⟩
        exact absurd hstep (step_rc_no_timeout T key now encoded s hE acts)
      · intro hE2
        exact absurd hE2 hE
  · intro options msg key2 now2 encoded2 s2 c acts hf h
    exact step_cause_not_timeout options msg key2 now2 encoded2 s2 c acts hf h

/-- C6 witness: T = 5, elapsed = 6 exits with cause elapsed-timeout; and a
concrete frame-limit exit does not carry cause elapsed-timeout. -/
theorem c6_timeout_strict_witness :
    (∃ acts, event_loop_step ⟨0, 5⟩ .RequestComplete 0 6 true ⟨0, 0⟩
      = .exit .elapsedTimeout acts)
    ∧ (.frameLimit : Cause) ≠ .elapsedTimeout :=
  ⟨(c6_timeout_strict 5 0 6 true ⟨0, 0⟩ (by decide)).1.mpr (by decide),
   (c6_timeout_strict 5 0 6 true ⟨0, 0⟩ (by decide)).2 ⟨3, 0⟩ .RequestComplete 0 0
     true ⟨5, 0⟩ .frameLimit [.StopCamera, .StopEncoder] (by decide)
     (step_frameout_exit 3 0 0 true ⟨5, 0⟩ (by decide) (by decide))⟩

/-- C7: the counter and the timeout anchor are reset together, and only by a
deferred encode: the dispatch assignment sets `count = 0` and
`start_time = now` exactly when EncodeBuffer returned false and leaves the
state untouched otherwise; and every continuing iteration either leaves
`start_time` unchanged with the counter merely incremented, or is a
deferred-encode RequestComplete iteration whose next state is exactly
`⟨0 + 1, now⟩` (both fields reset, then the `for` increment). -/
theorem c7_reset_together (options : VideoOptions) (msg : MsgType) (key : Int)
    (now : Nat) (encoded : Bool) (s : LoopState) :
    (encoded = false → dispatchUpdate now encoded s = ⟨0, now⟩)
    ∧ (encoded = true → dispatchUpdate now encoded s = s)
    ∧ (∀ s2 acts, event_loop_step options msg key now encoded s = .next s2 acts →
        (s2.start_time = s.start_time ∧ s2.count = (s.count + 1) % UINT32_MOD)
        ∨ (msg = .RequestComplete ∧ encoded = false ∧ s2 = ⟨1, now⟩)) := by
  refine ⟨fun h => by simp [dispatchUpdate, h], fun h => by simp [dispatchUpdate, h], ?_⟩
  intro s2 acts h
  cases msg with
  | Timeout =>
      left
      simp only [event_loop_step, StepResult.next.injEq] at h
      obtain ⟨hs, -⟩ := h
      rw [← hs]
      exact ⟨rfl, rfl⟩
  | Quit => simp [event_loop_step] at h
  | RequestComplete =>
      simp only [event_loop_step] at h
      split at h
      · cases h
      · rw [StepResult.next.injEq] at h
        obtain ⟨hs, -⟩ := h
        cases encoded
        · right
          refine ⟨rfl, rfl, ?_⟩
          rw [← hs]
          simp [dispatchUpdate, UINT32_MOD]
        · left
          rw [← hs]
          simp [dispatchUpdate]

/-- C7 witness: a deferred encode at time 7 from state ⟨3, 2⟩ resets both
fields; an accepted encode leaves the state alone. -/
theorem c7_reset_together_witness :
    dispatchUpdate 7 false ⟨3, 2⟩ = ⟨0, 7⟩
    ∧ dispatchUpdate 7 true ⟨3, 2⟩ = ⟨3, 2⟩
    ∧ (((⟨1, 7⟩ : LoopState).start_time = (⟨3, 2⟩ : LoopState).start_time
          ∧ (⟨1, 7⟩ : LoopState).count = ((⟨3, 2⟩ : LoopState).count + 1) % UINT32_MOD)
        ∨ (MsgType.RequestComplete = .RequestComplete ∧ false = false
          ∧ (⟨1, 7⟩ : LoopState) = ⟨1, 7⟩)) :=
  ⟨(c7_reset_together ⟨0, 0⟩ .RequestComplete 0 7 false ⟨3, 2⟩).1 rfl,
   (c7_reset_together ⟨0, 0⟩ .RequestComplete 0 7 true ⟨3, 2⟩).2.1 rfl,
   (c7_reset_together ⟨0, 0⟩ .RequestComplete 0 7 false ⟨3, 2⟩).2.2 ⟨1, 7⟩
     [.EncodeBuffer, .ShowPreview] (by decide)⟩

/-- C4: for every parameter, default, min and max, the bounded resolver
returns the fixed sentinel literal `100` and logs a warning whenever the
stored integer exceeds `max`, and returns `0` with a warning whenever the
stored integer is negative (and not over `max`). -/
theorem c4_bounded_sentinel (cfg : Config) (p : String) (d mn mx v : Int)
    (h : cfg p = some (.intV v)) :
    (v > mx → getValueBoundedInt cfg p d mn mx = ⟨.ok 100, true⟩)
    ∧ (v ≤ mx → v < 0 → getValueBoundedInt cfg p d mn mx = ⟨.ok 0, true⟩) := by
  simp only [getValueBoundedInt, h]
  constructor
  · intro hv
    rw [if_pos hv]
  · intro h1 h2
    rw [if_neg (by omega), if_pos h2]

/-- C4 witness: the claim's examples — max = 100 with stored value 150
yields the sentinel 100 (not 150) with a warning, and stored value -5 with
min = 0 yields 0 with a warning. -/
theorem c4_bounded_sentinel_witness :
    ((150 : Int) > 100
      ∧ getValueBoundedInt cfgStored150 "saturation" 1 0 100 = ⟨.ok 100, true⟩
      ∧ (100 : Int) ≠ 150)
    ∧ ((-5 : Int) ≤ 100 ∧ (-5 : Int) < 0
      ∧ getValueBoundedInt cfgStoredNeg5 "saturation" 1 0 100 = ⟨.ok 0, true⟩) :=
  ⟨⟨by decide,
    (c4_bounded_sentinel cfgStored150 "saturation" 1 0 100 150 rfl).1 (by decide),
    by decide⟩,
   ⟨by decide, by decide,
    (c4_bounded_sentinel cfgStoredNeg5 "saturation" 1 0 100 (-5) rfl).2
      (by decide) (by decide)⟩⟩

/-- C5 (counterexample): the claim says the unbounded resolver never fails
and returns the default on a type-mismatched stored value; in the source
only `SettingNotFoundException` is caught, so a stored string under an
integer lookup makes the exception escape instead of returning 50. -/
theorem c5_counterexample :
    getValueInt cfgTypeMismatch "brightness" 50 = .error .settingTypeExc
    ∧ (Except.error .settingTypeExc : Except CfgExc Int) ≠ .ok 50 := by
  exact ⟨rfl, by decide⟩

/-- C5 (amended): for every parameter and default, the integer, floating
point, and string resolvers return the supplied default when the key is
absent; but a stored value of mismatched type makes the uncaught
`SettingTypeException` escape (the resolver fails) in all three overloads. -/
theorem c5_lookup_fallback (cfg : Config) (p : String) (di : Int) (df : Rat)
    (ds : String) :
    (cfg p = none →
      getValueInt cfg p di = .ok di ∧ getValueFloat cfg p df = .ok df
        ∧ getValueString cfg p ds = .ok ds)
    ∧ (∀ v : CVal, cfg p = some v → (∀ i, v ≠ .intV i) →
        getValueInt cfg p di = .error .settingTypeExc)
    ∧ (∀ v : CVal, cfg p = some v → (∀ q, v ≠ .fltV q) →
        getValueFloat cfg p df = .error .settingTypeExc)
    ∧ (∀ v : CVal, cfg p = some v → (∀ t, v ≠ .strV t) →
        getValueString cfg p ds = .error .settingTypeExc) := by
  refine ⟨fun h => ?_, fun v hv hne => ?_, fun v hv hne => ?_, fun v hv hne => ?_⟩
  · simp [getValueInt, getValueFloat, getValueString, h]
  · cases v with
    | intV i => exact absurd rfl (hne i)
    | fltV q => simp [getValueInt, hv]
    | strV t => simp [getValueInt, hv]
  · cases v with
    | intV i => simp [getValueFloat, hv]
    | fltV q => exact absurd rfl (hne q)
    | strV t => simp [getValueFloat, hv]
  · cases v with
    | intV i => simp [getValueString, hv]
    | fltV q => simp [getValueString, hv]
    | strV t => exact absurd rfl (hne t)

/-- C5 witness: an empty store returns the defaults in all three domains,
and a stored string fails an integer lookup. -/
theorem c5_lookup_fallback_witness :
    (getValueInt cfgEmpty "width" 1280 = .ok 1280
      ∧ getValueFloat cfgEmpty "width" 0 = .ok 0
      ∧ getValueString cfgEmpty "width" "auto" = .ok "auto")
    ∧ getValueInt cfgTypeMismatch "width" 1280 = .error .settingTypeExc :=
  ⟨(c5_lookup_fallback cfgEmpty "width" 1280 0 "auto").1 rfl,
   (c5_lookup_fallback cfgTypeMismatch "width" 1280 0 "auto").2.1
     (.strV "oops") rfl (fun i h => by cases h)⟩

/-- C8: whenever the recorded pending signal is SIGINT, the next call to
get_key_or_signal returns the stop key 'x' (120), for every combination of
interactive-key mode, signal mode, and standard-input availability (and the
pending signal is left in place). -/
theorem c8_sigint_stop_key (keypressMode signalMode : Bool)
    (stdinLine : Option (List Nat)) :
    get_key_or_signal keypressMode signalMode SIGINT stdinLine = ⟨120, SIGINT⟩ :=
  rfl

/-- C9 (counterexample): with interactive-key mode on, no pending
interrupt, and a line "k" available, the claim says the call returns 'k'
(107); but with signal mode on and SIGUSR1 pending the signal mapping
overwrites the key and the call returns the newline key (10). -/
theorem c9_counterexample :
    (get_key_or_signal true true SIGUSR1 (some [107])).key = 10
    ∧ (10 : Int) ≠ 107 := by
  exact ⟨rfl, by decide⟩

/-- C9 (amended): with interactive-key mode enabled, no pending interrupt
signal, and a line available on standard input, the call returns the line's
first character — unless signal mode is enabled and the pending signal is
SIGUSR1 (key becomes newline) or SIGUSR2/SIGPIPE (key becomes 'x'), in
which case the signal mapping overwrites the keyboard character. -/
theorem c9_keypress_first_char (signalMode : Bool) (sr : Int) (ch : Nat)
    (rest : List Nat) (hInt : sr ≠ SIGINT) :
    ((signalMode = false ∨ (sr ≠ SIGUSR1 ∧ sr ≠ SIGUSR2 ∧ sr ≠ SIGPIPE)) →
      (get_key_or_signal true signalMode sr (some (ch :: rest))).key = ch)
    ∧ (signalMode = true → sr = SIGUSR1 →
      (get_key_or_signal true signalMode sr (some (ch :: rest))).key = 10)
    ∧ (signalMode = true → (sr = SIGUSR2 ∨ sr = SIGPIPE) →
      (get_key_or_signal true signalMode sr (some (ch :: rest))).key = 120) := by
  refine ⟨?_, ?_, ?_⟩
  · rintro (rfl | ⟨h1, h2, h3⟩)
    · simp [get_key_or_signal, hInt]
    · cases signalMode
      · simp [get_key_or_signal, hInt]
      · simp [get_key_or_signal, hInt, h1, h2, h3]
  · rintro rfl rfl
    simp [get_key_or_signal, hInt]
  · rintro rfl h
    rcases h with rfl | rfl
    · simp [get_key_or_signal, hInt, SIGINT, SIGUSR1, SIGUSR2]
    · simp [get_key_or_signal, hInt, SIGINT, SIGUSR1, SIGPIPE]

/-- C9 witness: with signal mode off the first character of the line is
returned; with signal mode on, pending SIGUSR1 yields newline. -/
theorem c9_keypress_first_char_witness :
    (get_key_or_signal true false 0 (some [107, 10])).key = 107
    ∧ (get_key_or_signal true true SIGUSR1 (some [107, 10])).key = 10 :=
  ⟨(c9_keypress_first_char false 0 107 [10] (by decide)).1 (Or.inl rfl),
   (c9_keypress_first_char true SIGUSR1 107 [10] (by decide)).2.1 rfl rfl⟩

/-- C10: the brightness option is ((b / 50) - 1) under truncating integer
division, so for every configured b in [0, 100] it takes exactly one of the
three values -1 (b in [0,49]), 0 (b in [50,99]), and 1 (b = 100). -/
theorem c10_brightness_levels (b : Int) (h0 : 0 ≤ b) (h1 : b ≤ 100) :
    (b ≤ 49 → brightnessSetting b = -1)
    ∧ (50 ≤ b → b ≤ 99 → brightnessSetting b = 0)
    ∧ (b = 100 → brightnessSetting b = 1)
    ∧ (brightnessSetting b = -1 ∨ brightnessSetting b = 0
        ∨ brightnessSetting b = 1) := by
  interval_cases b <;> decide

/-- C10 witness: the three levels at b = 25, 75, 100, and the default 50
mapping to level 0. -/
theorem c10_brightness_levels_witness :
    brightnessSetting 25 = -1 ∧ brightnessSetting 75 = 0
    ∧ brightnessSetting 100 = 1 ∧ brightnessSetting 50 = 0 :=
  ⟨(c10_brightness_levels 25 (by decide) (by decide)).1 (by decide),
   (c10_brightness_levels 75 (by decide) (by decide)).2.1 (by decide) (by decide),
   (c10_brightness_levels 100 (by decide) (by decide)).2.2.1 rfl,
   (c10_brightness_levels 50 (by decide) (by decide)).2.1 (by decide) (by decide)⟩
